import Mathlib

/-!
# CMD ping copy: the ping session of both programs

A shallow embedding of the two programs of the repository,

* `cs260_Lab_DIY-ping/cs260_Lab_DIY-ping.cpp` (class based, namespace `ClassBased`),
* `cs260_Lab_DIY-ping-ver2/cs260_Lab_DIY-ping-ver2.cpp` (one `main`, namespace `Ver2`),

followed by the properties of the ping session proved about them.

Conventions of the embedding.

* `int` counters are unbounded integers (`Int`); a `DWORD` is a natural number.
* The operating system is an oracle `Env`: what `g_running` holds each time the
  loop reads it, and what each `IcmpSendEcho` call returns.
* The ping loop is a step function on `LoopState`; one step is one evaluation
  of a condition on `g_running` together with the code it guards.
* A `double` that the programs obtain by one division of integers is kept as
  that exact quotient (`Dbl`); the rounding error of the division itself, below
  `2^-52` relative, is not modelled.
* Console output is the list of the texts written, one per statement, `std::endl`
  written as a newline character.
-/

namespace PingCopy

/-! ## The interrupt flag (both files, lines 15-29) -/

/-- Value of `CTRL_C_EVENT` in the Windows console header. -/
def CTRL_C_EVENT : Nat := 0

/-- The initial value of `static std::atomic<bool> g_running(true)`. -/
def g_running_init : Bool := true

/-- `ConsoleHandler(signal)`, the same in both files: the pair of the new value
of `g_running` and the `BOOL` returned. -/
def ConsoleHandler (signal : Nat) (g_running : Bool) : Bool × Bool :=
  if signal = CTRL_C_EVENT then (false, true) else (g_running, false)

/-! ## Doubles as exact quotients, `std::round` and fixed formatting -/

/-- A `double` computed as `num / den` from two integers. A zero denominator is
the IEEE division by zero: `0/0` is NaN, anything else over `0` an infinity. -/
structure Dbl where
  num : Int
  den : Int
deriving DecidableEq, Repr

/-- The quotient is NaN: `0.0 / 0`. -/
def Dbl.isNaN (x : Dbl) : Bool := x.num == 0 && x.den == 0

/-- Nearest natural number to `a / b` (`0 < b`), a half going up. -/
def roundHalfUpNat (a b : Nat) : Nat := (2 * a + b) / (2 * b)

/-- Nearest natural number to `a / b` (`0 < b`), a half going to the even
neighbour. -/
def roundHalfEvenNat (a b : Nat) : Nat :=
  let q := a / b
  let r := a % b
  if 2 * r < b then q
  else if b < 2 * r then q + 1
  else if q % 2 = 0 then q else q + 1

/-- The sign of the quotient is negative (IEEE: the signs of the operands differ). -/
def Dbl.negative (x : Dbl) : Bool := (decide (x.num < 0)) != (decide (x.den < 0))

/-- `static_cast<int>(std::round(x))`: the nearest integer, halves away from
zero, `int` being read as unbounded. Only meaningful for a finite `x`. -/
def Dbl.round (x : Dbl) : Int :=
  let m : Int := (roundHalfUpNat x.num.natAbs x.den.natAbs : Nat)
  if x.negative then -m else m

/-- Decimal digits of `n`, padded with zeros on the left to `width` characters. -/
def zeroPad (width : Nat) (n : Nat) : String :=
  String.mk (List.replicate (width - (toString n).length) '0') ++ toString n

/-- Text of `std::cout << std::fixed << std::setprecision(precision) << x`: the
value rounded to `precision` decimals, an exact half going to the even digit
(the C library rule in the default rounding mode). At precision 0 every half is
a binary fraction, hence an exact `double`. The spelling of NaN and of the
infinities is the library's own; `nan` and `inf` stand for it. -/
def formatFixed (precision : Nat) (x : Dbl) : String :=
  if x.den = 0 then
    if x.num = 0 then "nan" else if x.num < 0 then "-inf" else "inf"
  else
    let m := roundHalfEvenNat (x.num.natAbs * 10 ^ precision) x.den.natAbs
    let sign := if x.negative then "-" else ""
    let whole := toString (m / 10 ^ precision)
    if precision = 0 then sign ++ whole
    else sign ++ whole ++ "." ++ zeroPad precision (m % 10 ^ precision)

/-! ## Data shared by the two programs -/

/-- The five settings both programs parse from the command line, with the
defaults of the source (class `PingOptions`, and the locals of `main` in ver2). -/
structure Settings where
  numPings : Int := 4
  ttl : Int := 128
  timeout : Int := 1000
  dataSize : Int := 32
  infinitePing : Bool := false
deriving DecidableEq, Repr

/-- The option loop of `PingOptions::parseOptions` (lines 54-77) and of `main`
in ver2 (lines 55-76) over the arguments still to be read. `stoi` is
`std::stoi`; `none` is the exception it throws. -/
def parseLoop (stoi : String → Option Int) : List String → Settings → Option Settings
  | [], c => some c
  | [arg], c => if arg = "-t" then some { c with infinitePing := true } else some c
  | arg :: value :: rest, c =>
    if arg = "-t" then parseLoop stoi (value :: rest) { c with infinitePing := true }
    else if arg = "-n" then
      match stoi value with
      | some v => parseLoop stoi rest { c with numPings := v }
      | none => none
    else if arg = "-l" then
      match stoi value with
      | some v => parseLoop stoi rest { c with dataSize := v }
      | none => none
    else if arg = "-i" then
      match stoi value with
      | some v => parseLoop stoi rest { c with ttl := v }
      | none => none
    else if arg = "-w" then
      match stoi value with
      | some v => parseLoop stoi rest { c with timeout := v }
      | none => none
    else parseLoop stoi (value :: rest) c

/-- The fields of `ICMP_ECHO_REPLY` the programs read. -/
structure ICMP_ECHO_REPLY where
  RoundTripTime : Nat
  DataSize : Nat
  Ttl : Nat
deriving DecidableEq, Repr

/-- The field of `IP_OPTION_INFORMATION` that carries a time-to-live. -/
structure IP_OPTION_INFORMATION where
  Ttl : Nat
deriving DecidableEq, Repr

/-- The arguments of one `IcmpSendEcho` call that describe the request sent:
`DestinationAddress`, `RequestData`, `RequestSize` (a `WORD`), `RequestOptions`
(`none` is `nullptr`) and `Timeout` (a `DWORD`). The handle and the reply
buffer are local to the caller and left out. -/
structure EchoRequest where
  DestinationAddress : Nat
  RequestData : List Char
  RequestSize : Nat
  RequestOptions : Option IP_OPTION_INFORMATION
  Timeout : Nat
deriving DecidableEq, Repr

/-- A blocking call the loop makes. -/
inductive Effect where
  | IcmpSendEcho (request : EchoRequest)
  | Sleep (milliseconds : Nat)
deriving DecidableEq, Repr

/-- One output statement: the stream and the text written. -/
inductive Out where
  | cout (text : String)
  | cerr (text : String)
deriving DecidableEq, Repr

/-- The oracle: `g_running i` is what the `i`-th read of `g_running` by the
loop yields, `IcmpSendEcho i` what the `i`-th transport call returns (`none`
is the return value 0, `some reply` a reply written to the buffer). -/
structure Env where
  g_running : Nat → Bool
  IcmpSendEcho : Nat → Option ICMP_ECHO_REPLY

/-- Where the loop stands: before the `while` condition, before the `if` that
guards `Sleep(1000)`, or past the loop. -/
inductive Pc where
  | guard
  | sleepCheck
  | exited
deriving DecidableEq, Repr

/-- The variables of the loop, the calls made and the texts written so far.
`transportCalls` counts the `IcmpSendEcho` calls made. -/
structure LoopState where
  pc : Pc
  packetsSent : Int
  packetsReceived : Int
  roundTripTimes : List Nat
  transportCalls : Nat
  effects : List Effect
  console : List Out
deriving DecidableEq, Repr

/-- State at `int packetsSent = 0, packetsReceived = 0; std::vector<DWORD> roundTripTimes;`. -/
def LoopState.init : LoopState :=
  { pc := Pc.guard, packetsSent := 0, packetsReceived := 0, roundTripTimes := [],
    transportCalls := 0, effects := [], console := [] }

/-- The condition `g_running && (infinitePing || packetsSent < numPings)`, used
by the `while` and by the `if` before `Sleep`. -/
def continueCond (c : Settings) (g_running : Bool) (packetsSent : Int) : Bool :=
  g_running && (c.infinitePing || decide (packetsSent < c.numPings))

/-- The text of the reply line (`printReply`, and lines 145-147 of ver2). -/
def replyLine (targetIP : String) (reply : ICMP_ECHO_REPLY) : String :=
  "Reply from " ++ targetIP ++ ": bytes=" ++ toString reply.DataSize
    ++ " time=" ++ toString reply.RoundTripTime ++ "ms TTL=" ++ toString reply.Ttl ++ "\n"

/-- One step of the ping loop (class based lines 141-160, ver2 lines 130-158).
`g_running` is the value the step reads from the flag, `result` what
`IcmpSendEcho` returns if the step calls it.
At `guard`: the `while` condition, then the body up to the end of the
reply/timeout branch. At `sleepCheck`: the `if` and `Sleep(1000)`. -/
def loopStep (c : Settings) (request : EchoRequest) (targetIP : String)
    (g_running : Bool) (result : Option ICMP_ECHO_REPLY) (s : LoopState) : LoopState :=
  match s.pc with
  | Pc.guard =>
    if continueCond c g_running s.packetsSent then
      match result with
      | some reply =>
        { pc := Pc.sleepCheck
          packetsSent := s.packetsSent + 1
          packetsReceived := s.packetsReceived + 1
          roundTripTimes := s.roundTripTimes ++ [reply.RoundTripTime]
          transportCalls := s.transportCalls + 1
          effects := s.effects ++ [Effect.IcmpSendEcho request]
          console := s.console ++ [Out.cout (replyLine targetIP reply)] }
      | none =>
        { pc := Pc.sleepCheck
          packetsSent := s.packetsSent + 1
          packetsReceived := s.packetsReceived
          roundTripTimes := s.roundTripTimes
          transportCalls := s.transportCalls + 1
          effects := s.effects ++ [Effect.IcmpSendEcho request]
          console := s.console ++ [Out.cerr "Request timed out.\n"] }
    else { s with pc := Pc.exited }
  | Pc.sleepCheck =>
    if continueCond c g_running s.packetsSent then
      { s with pc := Pc.guard, effects := s.effects ++ [Effect.Sleep 1000] }
    else { s with pc := Pc.guard }
  | Pc.exited => s

/-- The loop state after `n` steps from `LoopState.init`: step `i` reads
`env.g_running i`, and a transport call gets the next unused result. -/
def runSteps (c : Settings) (request : EchoRequest) (targetIP : String) (env : Env) :
    Nat → LoopState
  | 0 => LoopState.init
  | n + 1 =>
    let s := runSteps c request targetIP env n
    loopStep c request targetIP (env.g_running n) (env.IcmpSendEcho s.transportCalls) s

/-- The least element of a non-empty vector (`std::min_element`). -/
def minElement (t : Nat) (ts : List Nat) : Nat := ts.foldl min t

/-- The greatest element of a non-empty vector (`std::max_element`). -/
def maxElement (t : Nat) (ts : List Nat) : Nat := ts.foldl max t

/-- The value of `std::accumulate(begin, end, 0.0) / size()`. -/
def average (times : List Nat) : Dbl := { num := (times.sum : Nat), den := (times.length : Nat) }

/-- The value of `100.0 * (sent - received) / sent`. -/
def lossPercent (sent received : Int) : Dbl := { num := 100 * (sent - received), den := sent }

/-- The external calls made while setting up, as the programs test them:
`true` is success. `getaddrinfo` yields the IPv4 address and its `inet_ntop`
text, `stoi` is `std::stoi` with `none` for a thrown exception. -/
structure Platform where
  SetConsoleCtrlHandler : Bool
  WSAStartup : Bool
  IcmpCreateFile : Bool
  getaddrinfo : String → Option (Nat × String)
  stoi : String → Option Int

/-- A value, or a C++ exception with its `what()` text. -/
inductive Try (α : Type) where
  | ok (value : α)
  | threw (what : String)
deriving DecidableEq, Repr

/-- What `Pinger::run` has done after a bounded number of loop steps. -/
inductive Run where
  | threw (what : String)
  | unfinished
  | finished (console : List Out) (effects : List Effect)
deriving DecidableEq, Repr

/-- What `main` has done after a bounded number of loop steps: still in the
loop, returned with an exit code, or ended by an exception nobody catches. -/
inductive Exit where
  | unfinished
  | returned (code : Int) (console : List Out) (effects : List Effect)
  | terminated
deriving DecidableEq, Repr

/-! ## The class based program: `cs260_Lab_DIY-ping.cpp` -/

namespace ClassBased

/-- Class `PingOptions` (lines 30-79). -/
structure PingOptions extends Settings where
  target : String
  targetIP : String := ""
  isDomain : Bool := false
deriving DecidableEq, Repr

/-- Constructor `PingOptions(argc, argv)` with `parseOptions` (lines 41-78):
the option loop starts at `argv[2]`. The `what()` text of the exception of
`std::stoi` is the library's own; `stoi` stands for it. -/
def PingOptions.create (stoi : String → Option Int) (argv : List String) : Try PingOptions :=
  if argv.length < 2 then
    Try.threw ("Usage: " ++ argv.headD "" ++ " <IP Address or Hostname> [options]")
  else
    match parseLoop stoi (argv.drop 2) {} with
    | some c => Try.ok { toSettings := c, target := argv.getD 1 "" }
    | none => Try.threw "stoi"

/-- The members of class `Pinger` the session uses (lines 166-169). -/
structure Pinger where
  options : PingOptions
  targetAddress : Nat
  sendData : List Char
deriving DecidableEq, Repr

/-- Function `Pinger::resolveAddress` (lines 171-192): the options with
`targetIP` filled in, and the address. -/
def Pinger.resolveAddress (options : PingOptions)
    (getaddrinfo : String → Option (Nat × String)) : Try (PingOptions × Nat) :=
  match getaddrinfo options.target with
  | none => Try.threw "getaddrinfo failed!"
  | some (address, ipstr) =>
    let o := { options with targetIP := ipstr }
    if o.targetIP = o.target then Try.ok ({ o with isDomain := false }, address)
    else Try.ok (o, address)

/-- Function `Pinger::prepareData` (lines 194-198). A negative `dataSize`
converts to a size no allocation can satisfy, and `make_unique` throws. -/
def Pinger.prepareData (options : PingOptions) : Try (List Char) :=
  if options.dataSize < 0 then Try.threw "bad allocation"
  else Try.ok (List.replicate options.dataSize.toNat 'A')

/-- Constructor `Pinger(options)` (lines 122-126), the member `icmpHandle`
being constructed first (lines 102-108). -/
def Pinger.create (pf : Platform) (options : PingOptions) : Try Pinger :=
  if !pf.IcmpCreateFile then Try.threw "IcmpCreateFile failed!"
  else
    match Pinger.resolveAddress options pf.getaddrinfo with
    | Try.threw what => Try.threw what
    | Try.ok (o, address) =>
      match Pinger.prepareData o with
      | Try.threw what => Try.threw what
      | Try.ok data => Try.ok { options := o, targetAddress := address, sendData := data }

/-- The request `Pinger::sendPing` hands to `IcmpSendEcho` (lines 206-207):
`options.dataSize` converts to the `WORD RequestSize`, `options.timeout` to
the `DWORD Timeout`, and the request options are `nullptr`. -/
def Pinger.sendPing (p : Pinger) : EchoRequest :=
  { DestinationAddress := p.targetAddress
    RequestData := p.sendData
    RequestSize := (p.options.dataSize % 65536).toNat
    RequestOptions := none
    Timeout := (p.options.timeout % 4294967296).toNat }

/-- Function `Pinger::printStatistics` (lines 224-240). -/
def Pinger.printStatistics (p : Pinger) (sent received : Int) (times : List Nat) : List Out :=
  [ Out.cout ("\nPing statistics for " ++ p.options.target ++ ":\n"),
    Out.cout ("    Packets: Sent = " ++ toString sent ++ ", Received = " ++ toString received
      ++ ", Lost = " ++ toString (sent - received)
      ++ " (" ++ formatFixed 1 (lossPercent sent received) ++ "% loss),\n") ]
  ++
  match times with
  | [] => []
  | t :: ts =>
    [ Out.cout "Approximate round trip times in milli-seconds:\n",
      Out.cout ("    Minimum = " ++ toString (minElement t ts) ++ "ms, Maximum = "
        ++ toString (maxElement t ts) ++ "ms, Average = "
        ++ toString (Dbl.round (average (t :: ts))) ++ "ms\n") ]

/-- The banner statement of `Pinger::run` (line 139). -/
def Pinger.banner (p : Pinger) : String :=
  "Pinging " ++ p.options.target ++ " with " ++ toString p.options.dataSize ++ " bytes of data:\n"

/-- The loop state of `Pinger::run` after `n` steps. -/
def Pinger.loop (p : Pinger) (env : Env) (n : Nat) : LoopState :=
  runSteps p.options.toSettings p.sendPing p.options.targetIP env n

/-- Function `Pinger::run` (lines 128-163), the loop given `fuel` steps. -/
def Pinger.run (p : Pinger) (pf : Platform) (env : Env) (fuel : Nat) : Run :=
  if !pf.SetConsoleCtrlHandler then Run.threw "Could not set control handler"
  else
    let s := p.loop env fuel
    if s.pc = Pc.exited then
      Run.finished
        ([Out.cout p.banner] ++ s.console
          ++ p.printStatistics s.packetsSent s.packetsReceived s.roundTripTimes)
        s.effects
    else Run.unfinished

/-- Function `main` (lines 243-258). -/
def main (argv : List String) (pf : Platform) (env : Env) (fuel : Nat) : Exit :=
  let caught (what : String) : Exit := Exit.returned 1 [Out.cerr ("Error: " ++ what ++ "\n")] []
  if !pf.WSAStartup then caught "WSAStartup failed!"
  else
    match PingOptions.create pf.stoi argv with
    | Try.threw what => caught what
    | Try.ok options =>
      match Pinger.create pf options with
      | Try.threw what => caught what
      | Try.ok pinger =>
        match pinger.run pf env fuel with
        | Run.threw what => caught what
        | Run.unfinished => Exit.unfinished
        | Run.finished console effects => Exit.returned 0 console effects

end ClassBased

/-! ## The single-function program: `cs260_Lab_DIY-ping-ver2.cpp` -/

namespace Ver2

/-- The locals of `main` the session uses once setup is done (lines 33-37, 53,
109-115). -/
structure Session where
  settings : Settings
  DomainName : String
  targetIP : String
  targetAddress : Nat
  sendData : List Char
deriving DecidableEq, Repr

/-- The request handed to `IcmpSendEcho` (lines 138-139). -/
def Session.request (v : Session) : EchoRequest :=
  { DestinationAddress := v.targetAddress
    RequestData := v.sendData
    RequestSize := (v.settings.dataSize % 65536).toNat
    RequestOptions := none
    Timeout := (v.settings.timeout % 4294967296).toNat }

/-- The banner statement (lines 120-127). -/
def Session.banner (v : Session) : String :=
  if v.DomainName = v.targetIP then
    "\nPinging " ++ v.targetIP ++ " with " ++ toString v.settings.dataSize ++ " bytes of data:\n"
  else
    "\nPinging " ++ v.DomainName ++ " [ " ++ v.targetIP ++ " ] " ++ " with "
      ++ toString v.settings.dataSize ++ " bytes of data:\n"

/-- The statistics block (lines 161-180). -/
def statistics (targetIP : String) (packetsSent packetsReceived : Int)
    (roundTripTimes : List Nat) : List Out :=
  match roundTripTimes with
  | t :: ts =>
    [ Out.cout ("\nPing statistics for " ++ targetIP ++ ":\n"),
      Out.cout ("    Packets: Sent = " ++ toString packetsSent ++ ", Received = "
        ++ toString packetsReceived ++ ", Lost = " ++ toString (packetsSent - packetsReceived)
        ++ " (" ++ formatFixed 0 (lossPercent packetsSent packetsReceived) ++ "% loss),\n"),
      Out.cout "Approximate round trip times in milli-seconds:\n",
      Out.cout ("    Minimum = " ++ toString (minElement t ts) ++ "ms, Maximum = "
        ++ toString (maxElement t ts) ++ "ms, Average = "
        ++ formatFixed 0 (average (t :: ts)) ++ "ms\n") ]
  | [] =>
    [ Out.cout ("\nPing statistics for " ++ targetIP ++ ":\n"),
      Out.cout ("    Packets: Sent = " ++ toString packetsSent ++ ", Received = 0, Lost = "
        ++ toString packetsSent ++ " (100% loss),\n") ]

/-- The loop state of `main` after `n` steps. -/
def Session.loop (v : Session) (env : Env) (n : Nat) : LoopState :=
  runSteps v.settings v.request v.targetIP env n

/-- Lines 117-187 of `main`: banner, loop (given `fuel` steps), statistics,
`return 0`. -/
def Session.run (v : Session) (env : Env) (fuel : Nat) : Exit :=
  let s := v.loop env fuel
  if s.pc = Pc.exited then
    Exit.returned 0
      ([Out.cout v.banner] ++ s.console
        ++ statistics v.targetIP s.packetsSent s.packetsReceived s.roundTripTimes)
      s.effects
  else Exit.unfinished

/-- Function `main` (lines 31-188): the option loop starts at `argv[1]`, and an
exception of `std::stoi` or of the `std::vector` constructor is not caught. -/
def main (argv : List String) (pf : Platform) (env : Env) (fuel : Nat) : Exit :=
  if !pf.SetConsoleCtrlHandler then
    Exit.returned 1 [Out.cerr "Failed to set control handler\n"] []
  else if argv.length < 2 then
    Exit.returned 1
      [Out.cerr ("Usage: " ++ argv.headD "" ++ " <IP Address or Hostname> [options]\n")] []
  else
    match parseLoop pf.stoi (argv.drop 1) {} with
    | none => Exit.terminated
    | some c =>
      if !pf.WSAStartup then Exit.returned 1 [Out.cerr "WSAStartup failed!\n"] []
      else if !pf.IcmpCreateFile then Exit.returned 1 [Out.cerr "IcmpCreateFile failed!\n"] []
      else
        match pf.getaddrinfo (argv.getD 1 "") with
        | none => Exit.returned 1 [Out.cerr "getaddrinfo failed!\n"] []
        | some (address, ipstr) =>
          if c.dataSize < 0 then Exit.terminated
          else
            Session.run
              { settings := c, DomainName := argv.getD 1 "", targetIP := ipstr,
                targetAddress := address, sendData := List.replicate c.dataSize.toNat 'A' }
              env fuel

end Ver2

/-! ## Definitions used to state the properties -/
/-- An effect is a transport call. -/
def Effect.isSend : Effect → Bool
  | Effect.IcmpSendEcho _ => true
  | Effect.Sleep _ => false

/-- The round trip times of the replies among the first `k` transport results,
in the order of the calls. -/
def repliedTimes (env : Env) (k : Nat) : List Nat :=
  (List.range k).filterMap fun i => (env.IcmpSendEcho i).map ICMP_ECHO_REPLY.RoundTripTime

/-- The number of replies among the first `k` transport results. -/
def replyCount (env : Env) (k : Nat) : Nat :=
  (List.range k).countP fun i => (env.IcmpSendEcho i).isSome

/-- What holds of the loop state `s` reached after `n` steps. -/
structure LoopInv (request : EchoRequest) (env : Env) (n : Nat) (s : LoopState) : Prop where
  sent : s.packetsSent = (s.transportCalls : Int)
  received : s.packetsReceived = (replyCount env s.transportCalls : Int)
  times : s.roundTripTimes = repliedTimes env s.transportCalls
  atGuard : s.pc = Pc.guard → n = 2 * s.transportCalls
  atSleepCheck : s.pc = Pc.sleepCheck → n + 1 = 2 * s.transportCalls
  sends : s.effects.countP Effect.isSend = s.transportCalls
  requests : ∀ e ∈ s.effects, e = Effect.IcmpSendEcho request ∨ e = Effect.Sleep 1000

/-- The process as the console handler and the loop see it: the flag and the
loop state. -/
structure Process where
  g_running : Bool
  loop : LoopState
deriving DecidableEq, Repr

/-- What can happen next in the process: the console calls `ConsoleHandler`
with a signal, or the loop takes a step (with the result of `IcmpSendEcho`,
should the step call it). -/
inductive ProcessEvent where
  | handler (signal : Nat)
  | loopStep (result : Option ICMP_ECHO_REPLY)
deriving DecidableEq, Repr

/-- The process at start: the flag as initialised, the loop not yet entered. -/
def Process.init : Process := { g_running := g_running_init, loop := LoopState.init }

/-- One event: the handler writes the flag, the loop reads it. -/
def Process.step (c : Settings) (request : EchoRequest) (targetIP : String) (σ : Process) :
    ProcessEvent → Process
  | ProcessEvent.handler signal => { σ with g_running := (ConsoleHandler signal σ.g_running).1 }
  | ProcessEvent.loopStep result =>
    { σ with loop := loopStep c request targetIP σ.g_running result σ.loop }

/-- A sequence of events, handler calls and loop steps in any interleaving. -/
def Process.run (c : Settings) (request : EchoRequest) (targetIP : String) (σ : Process)
    (events : List ProcessEvent) : Process :=
  events.foldl (Process.step c request targetIP) σ

/-! ## Concrete inputs used to evaluate the programs -/

/-- A platform on which setup succeeds, `localhost` and `127.0.0.1` resolve to
`127.0.0.1`, and `std::stoi` reads the numerals `0`, `1`, `2` and `5`. -/
def samplePlatform : Platform :=
  { SetConsoleCtrlHandler := true
    WSAStartup := true
    IcmpCreateFile := true
    getaddrinfo := fun host =>
      if host = "localhost" ∨ host = "127.0.0.1" then some (16777343, "127.0.0.1") else none
    stoi := fun text =>
      if text = "0" then some 0
      else if text = "1" then some 1
      else if text = "2" then some 2
      else if text = "5" then some 5
      else none }

/-- The flag is never cleared and every request is answered in 1 ms. -/
def sampleAllReplies : Env :=
  { g_running := fun _ => true
    IcmpSendEcho := fun _ => some { RoundTripTime := 1, DataSize := 32, Ttl := 128 } }

/-- The flag is never cleared and no request is answered. -/
def sampleAllTimeouts : Env :=
  { g_running := fun _ => true
    IcmpSendEcho := fun _ => none }

/-- The flag is already cleared when the loop first reads it. -/
def sampleStoppedAtOnce : Env :=
  { g_running := fun _ => false
    IcmpSendEcho := fun _ => some { RoundTripTime := 1, DataSize := 32, Ttl := 128 } }

/-- A `Pinger` as constructed for the target `localhost` with the given settings
and 32 bytes of data. -/
def samplePinger (c : Settings) : ClassBased.Pinger :=
  { options := { toSettings := c, target := "localhost", targetIP := "127.0.0.1" }
    targetAddress := 16777343
    sendData := List.replicate 32 'A' }

/-- The locals of `main` in ver2 for the target `localhost` with the given
settings and 32 bytes of data. -/
def sampleSession (c : Settings) : Ver2.Session :=
  { settings := c
    DomainName := "localhost"
    targetIP := "127.0.0.1"
    targetAddress := 16777343
    sendData := List.replicate 32 'A' }

/-! ## Lemmas about the loop -/

theorem repliedTimes_succ (env : Env) (k : Nat) :
    repliedTimes env (k + 1) = repliedTimes env k ++
      (match env.IcmpSendEcho k with
       | some reply => [reply.RoundTripTime]
       | none => []) := by
  unfold repliedTimes
  rw [List.range_succ, List.filterMap_append]
  cases h : env.IcmpSendEcho k <;> simp [h]

theorem replyCount_succ (env : Env) (k : Nat) :
    replyCount env (k + 1) = replyCount env k +
      (match env.IcmpSendEcho k with
       | some _ => 1
       | none => 0) := by
  unfold replyCount
  rw [List.range_succ, List.countP_append]
  cases h : env.IcmpSendEcho k <;> simp [h]

theorem repliedTimes_length (env : Env) (k : Nat) :
    (repliedTimes env k).length = replyCount env k := by
  induction k with
  | zero => simp [repliedTimes, replyCount]
  | succ k ih =>
    rw [repliedTimes_succ, replyCount_succ, List.length_append, ih]
    cases env.IcmpSendEcho k <;> simp

theorem replyCount_le (env : Env) (k : Nat) : replyCount env k ≤ k := by
  unfold replyCount
  calc (List.range k).countP _ ≤ (List.range k).length := List.countP_le_length _
    _ = k := List.length_range k

theorem loopInv_init (request : EchoRequest) (env : Env) :
    LoopInv request env 0 LoopState.init := by
  constructor <;> simp [LoopState.init, replyCount, repliedTimes]

theorem loopInv_step (c : Settings) (request : EchoRequest) (targetIP : String) (env : Env)
    (n : Nat) (g : Bool) (s : LoopState) (h : LoopInv request env n s) :
    LoopInv request env (n + 1)
      (loopStep c request targetIP g (env.IcmpSendEcho s.transportCalls) s) := by
  obtain ⟨h1, h2, h3, h4, h5, h6, h7⟩ := h
  unfold loopStep
  cases hpc : s.pc with
  | guard =>
    have hn := h4 hpc
    cases hc : continueCond c g s.packetsSent with
    | false => constructor <;> simp_all
    | true =>
      cases hr : env.IcmpSendEcho s.transportCalls with
      | none =>
        constructor <;>
          simp_all [replyCount_succ, repliedTimes_succ, List.countP_append, Effect.isSend]
        · omega
        · intro e he
          rcases he with he | he
          · exact h7 e he
          · exact Or.inl he
      | some reply =>
        constructor <;>
          simp_all [replyCount_succ, repliedTimes_succ, List.countP_append, Effect.isSend]
        · omega
        · intro e he
          rcases he with he | he
          · exact h7 e he
          · exact Or.inl he
  | sleepCheck =>
    have hn := h5 hpc
    cases hc : continueCond c g s.packetsSent with
    | false => constructor <;> simp_all
    | true =>
      constructor <;> simp_all [List.countP_append, Effect.isSend]
      intro e he
      rcases he with he | he
      · exact h7 e he
      · exact Or.inr he
  | exited => constructor <;> simp_all

theorem runSteps_inv (c : Settings) (request : EchoRequest) (targetIP : String) (env : Env)
    (n : Nat) : LoopInv request env n (runSteps c request targetIP env n) := by
  induction n with
  | zero => exact loopInv_init request env
  | succ n ih => exact loopInv_step c request targetIP env n (env.g_running n) _ ih

theorem runSteps_succ (c : Settings) (request : EchoRequest) (targetIP : String) (env : Env)
    (n : Nat) :
    runSteps c request targetIP env (n + 1) =
      loopStep c request targetIP (env.g_running n)
        (env.IcmpSendEcho (runSteps c request targetIP env n).transportCalls)
        (runSteps c request targetIP env n) := rfl

theorem loopStep_exited (c : Settings) (request : EchoRequest) (targetIP : String)
    (g : Bool) (r : Option ICMP_ECHO_REPLY) (s : LoopState) (h : s.pc = Pc.exited) :
    loopStep c request targetIP g r s = s := by
  unfold loopStep
  rw [h]

theorem loopStep_guard_false (c : Settings) (request : EchoRequest) (targetIP : String)
    (g : Bool) (r : Option ICMP_ECHO_REPLY) (s : LoopState) (h : s.pc = Pc.guard)
    (hc : continueCond c g s.packetsSent = false) :
    loopStep c request targetIP g r s = { s with pc := Pc.exited } := by
  simp [loopStep, h, hc]

theorem loopStep_guard_true (c : Settings) (request : EchoRequest) (targetIP : String)
    (g : Bool) (r : Option ICMP_ECHO_REPLY) (s : LoopState) (h : s.pc = Pc.guard)
    (hc : continueCond c g s.packetsSent = true) :
    (loopStep c request targetIP g r s).pc = Pc.sleepCheck ∧
    (loopStep c request targetIP g r s).transportCalls = s.transportCalls + 1 ∧
    (loopStep c request targetIP g r s).packetsSent = s.packetsSent + 1 ∧
    (loopStep c request targetIP g r s).effects = s.effects ++ [Effect.IcmpSendEcho request] := by
  cases r <;> simp [loopStep, h, hc]

theorem loopStep_sleepCheck (c : Settings) (request : EchoRequest) (targetIP : String)
    (g : Bool) (r : Option ICMP_ECHO_REPLY) (s : LoopState) (h : s.pc = Pc.sleepCheck) :
    loopStep c request targetIP g r s =
      { s with
        pc := Pc.guard
        effects := s.effects ++
          (if continueCond c g s.packetsSent then [Effect.Sleep 1000] else []) } := by
  cases hc : continueCond c g s.packetsSent <;> simp [loopStep, h, hc]

theorem runSteps_exited_stable (c : Settings) (request : EchoRequest) (targetIP : String)
    (env : Env) (n m : Nat) (h : (runSteps c request targetIP env n).pc = Pc.exited)
    (hm : n ≤ m) :
    runSteps c request targetIP env m = runSteps c request targetIP env n := by
  induction m with
  | zero =>
    have : n = 0 := by omega
    rw [this]
  | succ m ih =>
    rcases Nat.eq_or_lt_of_le hm with heq | hlt
    · rw [heq]
    · have hle : n ≤ m := by omega
      have e := ih hle
      rw [runSteps_succ, e, loopStep_exited _ _ _ _ _ _ h]

/-- While the `while` condition holds at the first `k` evaluations, the loop is back at its
condition after `2 * k` steps, with `k` calls made. -/
theorem runSteps_alive (c : Settings) (request : EchoRequest) (targetIP : String) (env : Env)
    (k : Nat) (h : ∀ i, i < k → continueCond c (env.g_running (2 * i)) (i : Int) = true) :
    (runSteps c request targetIP env (2 * k)).pc = Pc.guard ∧
      (runSteps c request targetIP env (2 * k)).transportCalls = k := by
  induction k with
  | zero => exact ⟨rfl, rfl⟩
  | succ k ih =>
    obtain ⟨hpc, hcalls⟩ := ih (fun i hi => h i (by omega))
    have inv := runSteps_inv c request targetIP env (2 * k)
    have hsent : (runSteps c request targetIP env (2 * k)).packetsSent = (k : Int) := by
      rw [inv.sent, hcalls]
    have hc := h k (by omega)
    have hs := loopStep_guard_true c request targetIP (env.g_running (2 * k))
      (env.IcmpSendEcho (runSteps c request targetIP env (2 * k)).transportCalls)
      (runSteps c request targetIP env (2 * k)) hpc (by rw [hsent]; exact hc)
    rw [← runSteps_succ] at hs
    have e2 : runSteps c request targetIP env (2 * (k + 1)) =
        runSteps c request targetIP env (2 * k + 1 + 1) := by
      congr 1
    rw [e2, runSteps_succ, loopStep_sleepCheck _ _ _ _ _ _ hs.1]
    exact ⟨rfl, by rw [hcalls] at hs; exact hs.2.1⟩

/-- When the `while` condition fails at its evaluation number `k` (the first being number 0),
the loop has exited after `2 * k + 1` steps. -/
theorem runSteps_exits (c : Settings) (request : EchoRequest) (targetIP : String) (env : Env)
    (k : Nat) (h : continueCond c (env.g_running (2 * k)) (k : Int) = false) :
    (runSteps c request targetIP env (2 * k + 1)).pc = Pc.exited := by
  have inv := runSteps_inv c request targetIP env (2 * k)
  cases hpc : (runSteps c request targetIP env (2 * k)).pc with
  | guard =>
    have hcalls : (runSteps c request targetIP env (2 * k)).transportCalls = k := by
      have := inv.atGuard hpc
      omega
    have hsent : (runSteps c request targetIP env (2 * k)).packetsSent = (k : Int) := by
      rw [inv.sent, hcalls]
    rw [runSteps_succ, loopStep_guard_false _ _ _ _ _ _ hpc (by rw [hsent]; exact h)]
  | sleepCheck =>
    have := inv.atSleepCheck hpc
    omega
  | exited =>
    rw [runSteps_exited_stable c request targetIP env (2 * k) (2 * k + 1) hpc (by omega)]
    exact hpc

/-- The state in which the loop exits when the `while` condition holds at its first `k`
evaluations and fails at the next: `k` requests were sent. -/
theorem runSteps_final (c : Settings) (request : EchoRequest) (targetIP : String) (env : Env)
    (k : Nat) (h : ∀ i, i < k → continueCond c (env.g_running (2 * i)) (i : Int) = true)
    (hk : continueCond c (env.g_running (2 * k)) (k : Int) = false) :
    (runSteps c request targetIP env (2 * k + 1)).pc = Pc.exited ∧
    (runSteps c request targetIP env (2 * k + 1)).transportCalls = k ∧
    (runSteps c request targetIP env (2 * k + 1)).packetsSent = (k : Int) ∧
    (runSteps c request targetIP env (2 * k + 1)).packetsReceived = (replyCount env k : Int) ∧
    (runSteps c request targetIP env (2 * k + 1)).roundTripTimes = repliedTimes env k := by
  obtain ⟨hpc, hcalls⟩ := runSteps_alive c request targetIP env k h
  have inv := runSteps_inv c request targetIP env (2 * k + 1)
  have hsent : (runSteps c request targetIP env (2 * k)).packetsSent = (k : Int) := by
    rw [(runSteps_inv c request targetIP env (2 * k)).sent, hcalls]
  have hcalls1 : (runSteps c request targetIP env (2 * k + 1)).transportCalls = k := by
    rw [runSteps_succ, loopStep_guard_false _ _ _ _ _ _ hpc (by rw [hsent]; exact hk)]
    exact hcalls
  refine ⟨runSteps_exits c request targetIP env k hk, hcalls1, ?_, ?_, ?_⟩
  · rw [inv.sent, hcalls1]
  · rw [inv.received, hcalls1]
  · rw [inv.times, hcalls1]

/-- Every run of the loop that is bounded by a count or meets a cleared flag at a `while`
evaluation exits. -/
theorem runSteps_terminates (c : Settings) (request : EchoRequest) (targetIP : String)
    (env : Env) (h : c.infinitePing = false ∨ ∃ j, env.g_running (2 * j) = false) :
    ∃ n, (runSteps c request targetIP env n).pc = Pc.exited := by
  rcases h with h | ⟨j, hj⟩
  · refine ⟨2 * c.numPings.toNat + 1, runSteps_exits c request targetIP env _ ?_⟩
    have : ¬ ((c.numPings.toNat : Int) < c.numPings) := by
      have := Int.self_le_toNat c.numPings
      omega
    simp [continueCond, h, this]
  · exact ⟨2 * j + 1, runSteps_exits c request targetIP env j (by simp [continueCond, hj])⟩

/-! ## Lemmas about rounding and formatting -/

theorem roundHalfEvenNat_mul (k s : Nat) (hs : 0 < s) : roundHalfEvenNat (k * s) s = k := by
  unfold roundHalfEvenNat
  simp [Nat.mul_div_cancel _ hs, hs]

theorem intersperse_replicate_succ {α : Type} (s a : α) (n : Nat) :
    List.intersperse s (List.replicate (n + 2) a) =
      List.intersperse s (List.replicate (n + 1) a) ++ [s, a] := by
  induction n with
  | zero => rfl
  | succ n ih =>
    have h3 : List.intersperse s (List.replicate (n + 1 + 2) a) =
        a :: s :: List.intersperse s (List.replicate (n + 2) a) := by
      show List.intersperse s (a :: a :: List.replicate (n + 1) a) = _
      rw [List.intersperse_cons_cons]
      rfl
    have h2 : List.intersperse s (List.replicate (n + 2) a) =
        a :: s :: List.intersperse s (List.replicate (n + 1) a) := by
      show List.intersperse s (a :: a :: List.replicate n a) = _
      rw [List.intersperse_cons_cons]
      rfl
    calc List.intersperse s (List.replicate (n + 1 + 2) a)
        = a :: s :: List.intersperse s (List.replicate (n + 2) a) := h3
      _ = a :: s :: (List.intersperse s (List.replicate (n + 1) a) ++ [s, a]) := by rw [ih]
      _ = (a :: s :: List.intersperse s (List.replicate (n + 1) a)) ++ [s, a] := rfl
      _ = List.intersperse s (List.replicate (n + 1 + 1) a) ++ [s, a] := by rw [← h2]

theorem continueCond_counting (c : Settings) (N : Nat) (hN : c.numPings = (N : Int))
    (hinf : c.infinitePing = false) (g : Bool) (i : Nat) :
    continueCond c g (i : Int) = (g && decide (i < N)) := by
  simp [continueCond, hinf, hN]

/-- With the flag never cleared and a count of `N`, after the `while` condition
of iteration `i + 1 ≤ N` and the request of that iteration, the calls made are
`i + 1` requests with one wait between each two. -/
theorem runSteps_uninterrupted (c : Settings) (request : EchoRequest) (targetIP : String)
    (env : Env) (N : Nat) (hN : c.numPings = (N : Int)) (hinf : c.infinitePing = false)
    (hflag : ∀ i, env.g_running i = true) (i : Nat) (hi : i < N) :
    (runSteps c request targetIP env (2 * i + 1)).pc = Pc.sleepCheck ∧
    (runSteps c request targetIP env (2 * i + 1)).packetsSent = ((i + 1 : Nat) : Int) ∧
    (runSteps c request targetIP env (2 * i + 1)).effects =
      List.intersperse (Effect.Sleep 1000)
        (List.replicate (i + 1) (Effect.IcmpSendEcho request)) := by
  induction i with
  | zero =>
    have hc : continueCond c (env.g_running 0)
        (runSteps c request targetIP env 0).packetsSent = true := by
      have := continueCond_counting c N hN hinf true 0
      simp only [Nat.cast_zero] at this
      simp [runSteps, LoopState.init, this, hflag, hi]
    have hs := loopStep_guard_true c request targetIP (env.g_running 0)
      (env.IcmpSendEcho (runSteps c request targetIP env 0).transportCalls)
      (runSteps c request targetIP env 0) rfl hc
    rw [← runSteps_succ] at hs
    refine ⟨hs.1, ?_, ?_⟩
    · rw [hs.2.2.1]; rfl
    · rw [hs.2.2.2]; rfl
  | succ i ih =>
    obtain ⟨hpc, hsent, heff⟩ := ih (by omega)
    have e1 : 2 * (i + 1) + 1 = 2 * i + 1 + 1 + 1 := by ring
    have hmid : runSteps c request targetIP env (2 * i + 1 + 1) =
        { runSteps c request targetIP env (2 * i + 1) with
          pc := Pc.guard
          effects := (runSteps c request targetIP env (2 * i + 1)).effects ++
            [Effect.Sleep 1000] } := by
      have hcc : continueCond c (env.g_running (2 * i + 1))
          (runSteps c request targetIP env (2 * i + 1)).packetsSent = true := by
        rw [hsent, continueCond_counting c N hN hinf]
        simp [hflag, hi]
      rw [runSteps_succ, loopStep_sleepCheck _ _ _ _ _ _ hpc, hcc]
      rfl
    have hc : continueCond c (env.g_running (2 * i + 1 + 1))
        (runSteps c request targetIP env (2 * i + 1 + 1)).packetsSent = true := by
      rw [hmid]
      simp only []
      rw [hsent, continueCond_counting c N hN hinf]
      simp [hflag, hi]
    have hs := loopStep_guard_true c request targetIP (env.g_running (2 * i + 1 + 1))
      (env.IcmpSendEcho (runSteps c request targetIP env (2 * i + 1 + 1)).transportCalls)
      (runSteps c request targetIP env (2 * i + 1 + 1)) (by rw [hmid]) hc
    rw [← runSteps_succ] at hs
    rw [e1]
    refine ⟨hs.1, ?_, ?_⟩
    · rw [hs.2.2.1, hmid]
      simp only []
      rw [hsent]
      push_cast
      ring
    · rw [hs.2.2.2, hmid]
      simp only []
      rw [heff, intersperse_replicate_succ, List.append_assoc]
      rfl

/-- With the flag never cleared and a count of `N ≥ 1`, the loop has exited
after `2 * N + 1` steps, having made `N` requests with one wait between each
two and none after the last. -/
theorem runSteps_uninterrupted_exit (c : Settings) (request : EchoRequest)
    (targetIP : String) (env : Env) (N : Nat) (hN : c.numPings = (N : Int))
    (hinf : c.infinitePing = false) (hflag : ∀ i, env.g_running i = true) (hpos : 1 ≤ N) :
    (runSteps c request targetIP env (2 * N + 1)).pc = Pc.exited ∧
    (runSteps c request targetIP env (2 * N + 1)).effects =
      List.intersperse (Effect.Sleep 1000)
        (List.replicate N (Effect.IcmpSendEcho request)) := by
  obtain ⟨i, rfl⟩ : ∃ i, N = i + 1 := ⟨N - 1, by omega⟩
  obtain ⟨hpc, hsent, heff⟩ :=
    runSteps_uninterrupted c request targetIP env (i + 1) hN hinf hflag i (by omega)
  have hmid : runSteps c request targetIP env (2 * i + 1 + 1) =
      { runSteps c request targetIP env (2 * i + 1) with pc := Pc.guard } := by
    have hcc : continueCond c (env.g_running (2 * i + 1))
        (runSteps c request targetIP env (2 * i + 1)).packetsSent = false := by
      rw [hsent, continueCond_counting c (i + 1) hN hinf]
      simp
    rw [runSteps_succ, loopStep_sleepCheck _ _ _ _ _ _ hpc, hcc]
    simp
  have e1 : 2 * (i + 1) + 1 = 2 * i + 1 + 1 + 1 := by ring
  have hc : continueCond c (env.g_running (2 * i + 1 + 1))
      (runSteps c request targetIP env (2 * i + 1 + 1)).packetsSent = false := by
    rw [hmid]
    simp only []
    rw [hsent, continueCond_counting c (i + 1) hN hinf]
    simp
  rw [e1, runSteps_succ, loopStep_guard_false _ _ _ _ _ _ (by rw [hmid]) hc, hmid]
  exact ⟨rfl, heff⟩

theorem intersperse_replicate_counts (request : EchoRequest) (n : Nat) :
    (List.intersperse (Effect.Sleep 1000)
      (List.replicate (n + 1) (Effect.IcmpSendEcho request))).countP Effect.isSend = n + 1 ∧
    (List.intersperse (Effect.Sleep 1000)
      (List.replicate (n + 1) (Effect.IcmpSendEcho request))).count (Effect.Sleep 1000) = n := by
  induction n with
  | zero => exact ⟨rfl, by simp [List.replicate, List.intersperse]⟩
  | succ n ih =>
    rw [intersperse_replicate_succ, List.countP_append, List.count_append, ih.1, ih.2]
    constructor
    · simp [Effect.isSend]
    · simp

/-! ## Lemmas about the two extreme transports -/

theorem replyCount_of_all_timeouts (env : Env) (h : ∀ i, env.IcmpSendEcho i = none) (k : Nat) :
    replyCount env k = 0 := by
  induction k with
  | zero => rfl
  | succ k ih => rw [replyCount_succ, ih, h k]; rfl

theorem repliedTimes_of_all_timeouts (env : Env) (h : ∀ i, env.IcmpSendEcho i = none)
    (k : Nat) : repliedTimes env k = [] := by
  induction k with
  | zero => rfl
  | succ k ih => rw [repliedTimes_succ, ih, h k]; rfl

theorem replyCount_of_all_replies (env : Env) (h : ∀ i, (env.IcmpSendEcho i).isSome = true)
    (k : Nat) : replyCount env k = k := by
  induction k with
  | zero => rfl
  | succ k ih =>
    rw [replyCount_succ, ih]
    have := h k
    cases hk : env.IcmpSendEcho k with
    | none => rw [hk] at this; cases this
    | some r => rfl

theorem formatFixed_full_loss (sent : Int) (h : 0 < sent) :
    formatFixed 1 (lossPercent sent 0) = "100.0" := by
  obtain ⟨n, rfl⟩ := Int.eq_ofNat_of_zero_le (le_of_lt h)
  have hn : 0 < n := by exact_mod_cast h
  have hden : ((n : Int) = 0) = False := by
    simp only [eq_iff_iff, iff_false]
    omega
  have hneg : Dbl.negative { num := 100 * ((n : Int) - 0), den := (n : Int) } = false := by
    simp only [Dbl.negative, bne_eq_false_iff_eq, decide_eq_decide]
    omega
  have hm : roundHalfEvenNat ((100 * ((n : Int) - 0)).natAbs * 10 ^ 1) (n : Int).natAbs
      = 1000 := by
    have e : (100 * ((n : Int) - 0)).natAbs * 10 ^ 1 = 1000 * n := by
      rw [sub_zero, Int.natAbs_mul, Int.natAbs_ofNat]
      have : (100 : Int).natAbs = 100 := rfl
      rw [this]
      ring
    rw [e, Int.natAbs_ofNat]
    exact roundHalfEvenNat_mul 1000 n hn
  unfold formatFixed lossPercent
  simp only [hden, if_false, hneg, hm]
  decide

theorem formatFixed_no_loss (precision : Nat) (sent : Int) (h : 0 < sent) :
    formatFixed precision (lossPercent sent sent) = formatFixed precision { num := 0, den := 1 } := by
  obtain ⟨n, rfl⟩ := Int.eq_ofNat_of_zero_le (le_of_lt h)
  have hn : 0 < n := by exact_mod_cast h
  have hden : ((n : Int) = 0) = False := by
    simp only [eq_iff_iff, iff_false]
    omega
  have hneg : Dbl.negative { num := 100 * ((n : Int) - (n : Int)), den := (n : Int) } = false := by
    simp only [Dbl.negative, bne_eq_false_iff_eq, decide_eq_decide]
    omega
  have hm : roundHalfEvenNat ((100 * ((n : Int) - (n : Int))).natAbs * 10 ^ precision)
      (n : Int).natAbs = 0 := by
    rw [sub_self, mul_zero, Int.natAbs_zero, zero_mul, Int.natAbs_ofNat]
    have := roundHalfEvenNat_mul 0 n hn
    rwa [zero_mul] at this
  have hm1 : roundHalfEvenNat ((0 : Int).natAbs * 10 ^ precision) (1 : Int).natAbs = 0 := by
    rw [Int.natAbs_zero, zero_mul]
    rfl
  have hneg1 : Dbl.negative { num := 0, den := 1 } = false := rfl
  have hden1 : ((1 : Int) = 0) = False := by simp
  unfold formatFixed lossPercent
  simp only [hden, if_false, hneg, hm, hm1, hneg1, hden1]

theorem loop_counters (c : Settings) (request : EchoRequest) (targetIP : String) (env : Env)
    (n : Nat) :
    0 ≤ (runSteps c request targetIP env n).packetsReceived ∧
    (runSteps c request targetIP env n).packetsReceived ≤
      (runSteps c request targetIP env n).packetsSent ∧
    ((runSteps c request targetIP env n).roundTripTimes.length : Int) =
      (runSteps c request targetIP env n).packetsReceived ∧
    (runSteps c request targetIP env n).roundTripTimes =
      repliedTimes env (runSteps c request targetIP env n).packetsSent.toNat := by
  have inv := runSteps_inv c request targetIP env n
  have hle := replyCount_le env (runSteps c request targetIP env n).transportCalls
  refine ⟨?_, ?_, ?_, ?_⟩
  · rw [inv.received]; omega
  · rw [inv.received, inv.sent]; omega
  · rw [inv.received, inv.times, repliedTimes_length]
  · rw [inv.sent, Int.toNat_ofNat]; exact inv.times

/-- C1. In both programs, after any number of steps of the ping loop (so at every
loop boundary and at loop exit), for every count setting, every sequence of
transport results and every sequence of readings of the flag:
`0 ≤ packetsReceived ≤ packetsSent`, `roundTripTimes.size() = packetsReceived`,
and `roundTripTimes` holds the round trip times of the replies among the
requests sent so far, in the order of the requests. -/
theorem session_invariant :
    (∀ (p : ClassBased.Pinger) (env : Env) (n : Nat),
      0 ≤ (p.loop env n).packetsReceived ∧
      (p.loop env n).packetsReceived ≤ (p.loop env n).packetsSent ∧
      ((p.loop env n).roundTripTimes.length : Int) = (p.loop env n).packetsReceived ∧
      (p.loop env n).roundTripTimes = repliedTimes env (p.loop env n).packetsSent.toNat) ∧
    (∀ (v : Ver2.Session) (env : Env) (n : Nat),
      0 ≤ (v.loop env n).packetsReceived ∧
      (v.loop env n).packetsReceived ≤ (v.loop env n).packetsSent ∧
      ((v.loop env n).roundTripTimes.length : Int) = (v.loop env n).packetsReceived ∧
      (v.loop env n).roundTripTimes = repliedTimes env (v.loop env n).packetsSent.toNat) :=
  ⟨fun _ env n => loop_counters _ _ _ env n, fun _ env n => loop_counters _ _ _ env n⟩

theorem process_run_stopped (c : Settings) (request : EchoRequest) (targetIP : String)
    (events : List ProcessEvent) (σ : Process) (h : σ.g_running = false) :
    (Process.run c request targetIP σ events).g_running = false := by
  induction events generalizing σ with
  | nil => exact h
  | cons e es ih =>
    unfold Process.run
    rw [List.foldl_cons]
    apply ih
    cases e with
    | handler signal =>
      simp only [Process.step, ConsoleHandler]
      split <;> simp [h]
    | loopStep result => exact h

theorem process_run_append (c : Settings) (request : EchoRequest) (targetIP : String)
    (σ : Process) (before after : List ProcessEvent) :
    Process.run c request targetIP σ (before ++ after) =
      Process.run c request targetIP (Process.run c request targetIP σ before) after := by
  unfold Process.run
  rw [List.foldl_append]

/-- C9. The interrupt flag. `g_running` starts as `true` (Running).
`ConsoleHandler` called with `CTRL_C_EVENT` sets it to `false` (StopRequested) and
returns `TRUE`; called with any other signal it leaves the flag as it is and returns
`FALSE`. A step of the ping loop never writes the flag. Hence, in every sequence of
handler calls interleaved with loop steps (for every configuration of either
program), once the flag is `false` it is `false` in every later state. -/
theorem interrupt_flag_state_machine :
    g_running_init = true ∧
    Process.init.g_running = true ∧
    (∀ g : Bool, ConsoleHandler CTRL_C_EVENT g = (false, true)) ∧
    (∀ (signal : Nat) (g : Bool), signal ≠ CTRL_C_EVENT →
      ConsoleHandler signal g = (g, false)) ∧
    (∀ (c : Settings) (request : EchoRequest) (targetIP : String) (σ : Process)
        (result : Option ICMP_ECHO_REPLY),
      (Process.step c request targetIP σ (ProcessEvent.loopStep result)).g_running
        = σ.g_running) ∧
    (∀ (c : Settings) (request : EchoRequest) (targetIP : String) (σ : Process)
        (before after : List ProcessEvent),
      (Process.run c request targetIP σ before).g_running = false →
      (Process.run c request targetIP σ (before ++ after)).g_running = false) := by
  refine ⟨rfl, rfl, ?_, ?_, ?_, ?_⟩
  · intro g
    simp [ConsoleHandler]
  · intro signal g h
    simp [ConsoleHandler, h]
  · intro c request targetIP σ result
    rfl
  · intro c request targetIP σ before after h
    rw [process_run_append]
    exact process_run_stopped c request targetIP after _ h

theorem loopStep_guard_effects (c : Settings) (request : EchoRequest) (targetIP : String)
    (g : Bool) (result : Option ICMP_ECHO_REPLY) (s : LoopState) (h : s.pc = Pc.guard) :
    (loopStep c request targetIP g result s).effects =
      s.effects ++
        (if continueCond c g s.packetsSent then [Effect.IcmpSendEcho request] else []) := by
  cases hc : continueCond c g s.packetsSent with
  | true => simp [(loopStep_guard_true c request targetIP g result s h hc).2.2.2]
  | false => simp [loopStep_guard_false c request targetIP g result s h hc]

theorem loopStep_sleepCheck_effects (c : Settings) (request : EchoRequest) (targetIP : String)
    (g : Bool) (result : Option ICMP_ECHO_REPLY) (s : LoopState) (h : s.pc = Pc.sleepCheck) :
    (loopStep c request targetIP g result s).effects =
      s.effects ++ (if continueCond c g s.packetsSent then [Effect.Sleep 1000] else []) := by
  rw [loopStep_sleepCheck c request targetIP g result s h]

theorem uninterrupted_run (c : Settings) (request : EchoRequest) (targetIP : String)
    (env : Env) (N : Nat) (hpos : 1 ≤ N) (hN : c.numPings = (N : Int))
    (hinf : c.infinitePing = false) (hflag : ∀ i, env.g_running i = true) :
    (runSteps c request targetIP env (2 * N + 1)).pc = Pc.exited ∧
    (runSteps c request targetIP env (2 * N + 1)).effects =
      List.intersperse (Effect.Sleep 1000) (List.replicate N (Effect.IcmpSendEcho request)) ∧
    (runSteps c request targetIP env (2 * N + 1)).effects.countP Effect.isSend = N ∧
    (runSteps c request targetIP env (2 * N + 1)).effects.count (Effect.Sleep 1000) = N - 1 ∧
    (∀ fuel, 2 * N + 1 ≤ fuel →
      runSteps c request targetIP env fuel = runSteps c request targetIP env (2 * N + 1)) := by
  obtain ⟨hpc, heff⟩ := runSteps_uninterrupted_exit c request targetIP env N hN hinf hflag hpos
  obtain ⟨n, rfl⟩ : ∃ n, N = n + 1 := ⟨N - 1, by omega⟩
  refine ⟨hpc, heff, ?_, ?_, ?_⟩
  · rw [heff]; exact (intersperse_replicate_counts request n).1
  · rw [heff]; exact (intersperse_replicate_counts request n).2
  · intro fuel hfuel
    exact runSteps_exited_stable c request targetIP env _ fuel hpc hfuel

/-- C10. Inter-packet delay, in both programs. A step at the check that follows a
transport call appends `Sleep(1000)` exactly when the continuation condition
`g_running && (infinitePing || packetsSent < numPings)`, evaluated at that point,
holds, and a step at the `while` condition appends no wait; so no wait is started
when the flag reads `false` there, nor after the last counted send. For every count
`N ≥ 1` without `-t`, with the flag never cleared, the loop exits having made
exactly `N` transport calls and `N - 1` waits, one between each two consecutive
calls, and makes no call or wait afterwards. -/
theorem inter_packet_delay :
    (∀ (c : Settings) (request : EchoRequest) (targetIP : String) (g : Bool)
        (result : Option ICMP_ECHO_REPLY) (s : LoopState), s.pc = Pc.sleepCheck →
      (loopStep c request targetIP g result s).effects =
        s.effects ++ (if continueCond c g s.packetsSent then [Effect.Sleep 1000] else [])) ∧
    (∀ (c : Settings) (request : EchoRequest) (targetIP : String) (g : Bool)
        (result : Option ICMP_ECHO_REPLY) (s : LoopState), s.pc = Pc.guard →
      (loopStep c request targetIP g result s).effects =
        s.effects ++
          (if continueCond c g s.packetsSent then [Effect.IcmpSendEcho request] else [])) ∧
    (∀ (c : Settings) (request : EchoRequest) (targetIP : String)
        (result : Option ICMP_ECHO_REPLY) (s : LoopState), s.pc = Pc.sleepCheck →
      (loopStep c request targetIP false result s).effects = s.effects) ∧
    (∀ (c : Settings) (request : EchoRequest) (targetIP : String) (g : Bool)
        (result : Option ICMP_ECHO_REPLY) (s : LoopState), s.pc = Pc.sleepCheck →
      c.infinitePing = false → c.numPings ≤ s.packetsSent →
      (loopStep c request targetIP g result s).effects = s.effects) ∧
    (∀ (p : ClassBased.Pinger) (env : Env) (N : Nat), 1 ≤ N →
      p.options.numPings = (N : Int) → p.options.infinitePing = false →
      (∀ i, env.g_running i = true) →
      (p.loop env (2 * N + 1)).pc = Pc.exited ∧
      (p.loop env (2 * N + 1)).effects =
        List.intersperse (Effect.Sleep 1000)
          (List.replicate N (Effect.IcmpSendEcho p.sendPing)) ∧
      (p.loop env (2 * N + 1)).effects.countP Effect.isSend = N ∧
      (p.loop env (2 * N + 1)).effects.count (Effect.Sleep 1000) = N - 1 ∧
      (∀ fuel, 2 * N + 1 ≤ fuel → p.loop env fuel = p.loop env (2 * N + 1))) ∧
    (∀ (v : Ver2.Session) (env : Env) (N : Nat), 1 ≤ N →
      v.settings.numPings = (N : Int) → v.settings.infinitePing = false →
      (∀ i, env.g_running i = true) →
      (v.loop env (2 * N + 1)).pc = Pc.exited ∧
      (v.loop env (2 * N + 1)).effects =
        List.intersperse (Effect.Sleep 1000)
          (List.replicate N (Effect.IcmpSendEcho v.request)) ∧
      (v.loop env (2 * N + 1)).effects.countP Effect.isSend = N ∧
      (v.loop env (2 * N + 1)).effects.count (Effect.Sleep 1000) = N - 1 ∧
      (∀ fuel, 2 * N + 1 ≤ fuel → v.loop env fuel = v.loop env (2 * N + 1))) := by
  refine ⟨loopStep_sleepCheck_effects, loopStep_guard_effects, ?_, ?_, ?_, ?_⟩
  · intro c request targetIP result s h
    rw [loopStep_sleepCheck_effects c request targetIP false result s h]
    simp [continueCond]
  · intro c request targetIP g result s h hinf hle
    rw [loopStep_sleepCheck_effects c request targetIP g result s h]
    have : ¬ s.packetsSent < c.numPings := not_lt.mpr hle
    simp [continueCond, hinf, this]
  · intro p env N hpos hN hinf hflag
    exact uninterrupted_run _ _ _ env N hpos hN hinf hflag
  · intro v env N hpos hN hinf hflag
    exact uninterrupted_run _ _ _ env N hpos hN hinf hflag

/-- On the default count of 4 with every request answered, the class based loop
makes four calls and three waits. -/
theorem inter_packet_delay_witness :
    (ClassBased.Pinger.loop
        { options := { target := "127.0.0.1", targetIP := "127.0.0.1" },
          targetAddress := 16777343, sendData := List.replicate 32 'A' }
        sampleAllReplies 9).effects.count (Effect.Sleep 1000) = 4 - 1 :=
  (inter_packet_delay.2.2.2.2.1
    { options := { target := "127.0.0.1", targetIP := "127.0.0.1" },
      targetAddress := 16777343, sendData := List.replicate 32 'A' }
    sampleAllReplies 4 (by decide) rfl rfl (fun _ => rfl)).2.2.2.1

theorem all_timeouts_state (c : Settings) (request : EchoRequest) (targetIP : String)
    (env : Env) (htimeout : ∀ i, env.IcmpSendEcho i = none) (n : Nat) :
    (runSteps c request targetIP env n).packetsReceived = 0 ∧
    (runSteps c request targetIP env n).roundTripTimes = [] := by
  have inv := runSteps_inv c request targetIP env n
  constructor
  · rw [inv.received, replyCount_of_all_timeouts env htimeout]
    rfl
  · rw [inv.times, repliedTimes_of_all_timeouts env htimeout]

/-- C3. In both programs, when the transport times out on every call: at every
point of the loop `packetsReceived = 0` and `roundTripTimes` is empty; a session
that is bounded by a count or stopped by the flag ends; and when the loop has ended
with `packetsSent > 0` the run prints, after the banner and one time-out line per
request, exactly the two lines of the summary, with `Received = 0`,
`Lost = packetsSent` and a loss of 100 percent (`100.0` in the class based program,
`100` in ver2), and no round trip time lines. -/
theorem all_timeouts_summary (env : Env) (htimeout : ∀ i, env.IcmpSendEcho i = none) :
    (∀ (p : ClassBased.Pinger) (pf : Platform), pf.SetConsoleCtrlHandler = true →
      ((p.options.infinitePing = false ∨ ∃ j, env.g_running (2 * j) = false) →
        ∃ fuel, (p.loop env fuel).pc = Pc.exited) ∧
      (∀ fuel,
        (p.loop env fuel).packetsReceived = 0 ∧ (p.loop env fuel).roundTripTimes = [] ∧
        ((p.loop env fuel).pc = Pc.exited → 0 < (p.loop env fuel).packetsSent →
          p.run pf env fuel =
            Run.finished
              ([Out.cout p.banner] ++ (p.loop env fuel).console ++
                [ Out.cout ("\nPing statistics for " ++ p.options.target ++ ":\n"),
                  Out.cout ("    Packets: Sent = " ++ toString (p.loop env fuel).packetsSent
                    ++ ", Received = 0, Lost = " ++ toString (p.loop env fuel).packetsSent
                    ++ " (100.0% loss),\n") ])
              (p.loop env fuel).effects))) ∧
    (∀ (v : Ver2.Session),
      ((v.settings.infinitePing = false ∨ ∃ j, env.g_running (2 * j) = false) →
        ∃ fuel, (v.loop env fuel).pc = Pc.exited) ∧
      (∀ fuel,
        (v.loop env fuel).packetsReceived = 0 ∧ (v.loop env fuel).roundTripTimes = [] ∧
        ((v.loop env fuel).pc = Pc.exited → 0 < (v.loop env fuel).packetsSent →
          v.run env fuel =
            Exit.returned 0
              ([Out.cout v.banner] ++ (v.loop env fuel).console ++
                [ Out.cout ("\nPing statistics for " ++ v.targetIP ++ ":\n"),
                  Out.cout ("    Packets: Sent = " ++ toString (v.loop env fuel).packetsSent
                    ++ ", Received = 0, Lost = " ++ toString (v.loop env fuel).packetsSent
                    ++ " (100% loss),\n") ])
              (v.loop env fuel).effects))) := by
  constructor
  · intro p pf hpf
    refine ⟨fun h => runSteps_terminates _ _ _ env h, ?_⟩
    intro fuel
    obtain ⟨hrecv, htimes⟩ :=
      all_timeouts_state p.options.toSettings p.sendPing p.options.targetIP env htimeout fuel
    have hrecv' : (p.loop env fuel).packetsReceived = 0 := hrecv
    have htimes' : (p.loop env fuel).roundTripTimes = [] := htimes
    refine ⟨hrecv', htimes', ?_⟩
    intro hpc hsent
    unfold ClassBased.Pinger.run ClassBased.Pinger.printStatistics
    simp only [hpf, hpc, hrecv', htimes', formatFixed_full_loss _ hsent, sub_zero,
      Bool.not_true, Bool.false_eq_true, if_false, if_true, List.append_nil,
      String.append_assoc]
    rfl
  · intro v
    refine ⟨fun h => runSteps_terminates _ _ _ env h, ?_⟩
    intro fuel
    obtain ⟨hrecv, htimes⟩ :=
      all_timeouts_state v.settings v.request v.targetIP env htimeout fuel
    have hrecv' : (v.loop env fuel).packetsReceived = 0 := hrecv
    have htimes' : (v.loop env fuel).roundTripTimes = [] := htimes
    refine ⟨hrecv', htimes', ?_⟩
    intro hpc _
    unfold Ver2.Session.run Ver2.statistics
    simp only [hpc, htimes', if_true, String.append_assoc]

/-- Two requests to `localhost`, both timing out: the class based run ends with the
two-line summary and a loss of `100.0`. -/
theorem all_timeouts_summary_witness :
    (∀ i, sampleAllTimeouts.IcmpSendEcho i = none) ∧
    (samplePinger { numPings := 2 }).run samplePlatform sampleAllTimeouts 5 =
      Run.finished
        [ Out.cout "Pinging localhost with 32 bytes of data:\n",
          Out.cerr "Request timed out.\n",
          Out.cerr "Request timed out.\n",
          Out.cout "\nPing statistics for localhost:\n",
          Out.cout "    Packets: Sent = 2, Received = 0, Lost = 2 (100.0% loss),\n" ]
        [ Effect.IcmpSendEcho (samplePinger { numPings := 2 }).sendPing,
          Effect.Sleep 1000,
          Effect.IcmpSendEcho (samplePinger { numPings := 2 }).sendPing ] :=
  ⟨fun _ => rfl,
    ((((all_timeouts_summary sampleAllTimeouts (fun _ => rfl)).1
      (samplePinger { numPings := 2 }) samplePlatform rfl).2 5).2.2
        (by decide) (by decide)).trans (by decide)⟩

theorem all_replies_run (c : Settings) (request : EchoRequest) (targetIP : String)
    (env : Env) (N : Nat) (hN : c.numPings = (N : Int)) (hinf : c.infinitePing = false)
    (hflag : ∀ i, env.g_running i = true)
    (hreply : ∀ i, (env.IcmpSendEcho i).isSome = true) :
    (runSteps c request targetIP env (2 * N + 1)).pc = Pc.exited ∧
    (runSteps c request targetIP env (2 * N + 1)).packetsSent = (N : Int) ∧
    (runSteps c request targetIP env (2 * N + 1)).packetsReceived = (N : Int) ∧
    (runSteps c request targetIP env (2 * N + 1)).roundTripTimes = repliedTimes env N ∧
    (repliedTimes env N).length = N := by
  have halive : ∀ i, i < N → continueCond c (env.g_running (2 * i)) (i : Int) = true := by
    intro i hi
    rw [continueCond_counting c N hN hinf, hflag]
    simp [hi]
  have hexit : continueCond c (env.g_running (2 * N)) (N : Int) = false := by
    rw [continueCond_counting c N hN hinf]
    simp
  obtain ⟨hpc, _, hsent, hrecv, htimes⟩ :=
    runSteps_final c request targetIP env N halive hexit
  refine ⟨hpc, hsent, ?_, htimes, ?_⟩
  · rw [hrecv, replyCount_of_all_replies env hreply]
  · rw [repliedTimes_length, replyCount_of_all_replies env hreply]

/-- Counts of at least one. For every count `N ≥ 1` without `-t`, with the flag
never cleared and every request answered, the loop of either program exits with
`packetsSent = packetsReceived = N`, and the loss printed in the summary is 0
(`0.0` in the class based program, `0` in ver2). -/
theorem all_replies_positive_count (env : Env) (N : Nat) (hpos : 1 ≤ N)
    (hflag : ∀ i, env.g_running i = true)
    (hreply : ∀ i, (env.IcmpSendEcho i).isSome = true) :
    (∀ (p : ClassBased.Pinger), p.options.numPings = (N : Int) →
      p.options.infinitePing = false →
      (p.loop env (2 * N + 1)).pc = Pc.exited ∧
      (p.loop env (2 * N + 1)).packetsSent = (N : Int) ∧
      (p.loop env (2 * N + 1)).packetsReceived = (N : Int) ∧
      (p.printStatistics (p.loop env (2 * N + 1)).packetsSent
          (p.loop env (2 * N + 1)).packetsReceived
          (p.loop env (2 * N + 1)).roundTripTimes)[1]? =
        some (Out.cout ("    Packets: Sent = " ++ toString (N : Int) ++ ", Received = "
          ++ toString (N : Int) ++ ", Lost = 0 (0.0% loss),\n"))) ∧
    (∀ (v : Ver2.Session), v.settings.numPings = (N : Int) →
      v.settings.infinitePing = false →
      (v.loop env (2 * N + 1)).pc = Pc.exited ∧
      (v.loop env (2 * N + 1)).packetsSent = (N : Int) ∧
      (v.loop env (2 * N + 1)).packetsReceived = (N : Int) ∧
      (Ver2.statistics v.targetIP (v.loop env (2 * N + 1)).packetsSent
          (v.loop env (2 * N + 1)).packetsReceived
          (v.loop env (2 * N + 1)).roundTripTimes)[1]? =
        some (Out.cout ("    Packets: Sent = " ++ toString (N : Int) ++ ", Received = "
          ++ toString (N : Int) ++ ", Lost = 0 (0% loss),\n"))) := by
  have hNpos : (0 : Int) < (N : Int) := by exact_mod_cast hpos
  constructor
  · intro p hN hinf
    obtain ⟨hpc, hsent, hrecv, _, _⟩ :=
      all_replies_run p.options.toSettings p.sendPing p.options.targetIP env N hN hinf
        hflag hreply
    have hsent' : (p.loop env (2 * N + 1)).packetsSent = (N : Int) := hsent
    have hrecv' : (p.loop env (2 * N + 1)).packetsReceived = (N : Int) := hrecv
    refine ⟨hpc, hsent, hrecv, ?_⟩
    rw [hsent', hrecv']
    unfold ClassBased.Pinger.printStatistics
    simp only [formatFixed_no_loss 1 _ hNpos, sub_self, List.cons_append, List.nil_append,
      List.getElem?_cons_succ, List.getElem?_cons_zero, Option.some.injEq, Out.cout.injEq,
      String.append_assoc]
    rfl
  · intro v hN hinf
    obtain ⟨hpc, hsent, hrecv, htimes, hlen⟩ :=
      all_replies_run v.settings v.request v.targetIP env N hN hinf hflag hreply
    have hsent' : (v.loop env (2 * N + 1)).packetsSent = (N : Int) := hsent
    have hrecv' : (v.loop env (2 * N + 1)).packetsReceived = (N : Int) := hrecv
    have htimes' : (v.loop env (2 * N + 1)).roundTripTimes = repliedTimes env N := htimes
    refine ⟨hpc, hsent, hrecv, ?_⟩
    rw [hsent', hrecv', htimes']
    cases hts : repliedTimes env N with
    | nil =>
      rw [hts] at hlen
      simp at hlen
      omega
    | cons t ts =>
      unfold Ver2.statistics
      simp only [formatFixed_no_loss 0 _ hNpos, sub_self, List.getElem?_cons_succ,
        List.getElem?_cons_zero, Option.some.injEq, Out.cout.injEq, String.append_assoc]
      rfl

/-- The default count of 4, every request answered: both programs send and
receive four and print a loss of 0. -/
theorem all_replies_positive_count_witness :
    ((samplePinger {}).loop sampleAllReplies (2 * 4 + 1)).packetsReceived = ((4 : Nat) : Int) ∧
    ((sampleSession {}).loop sampleAllReplies (2 * 4 + 1)).packetsReceived = ((4 : Nat) : Int) :=
  ⟨((all_replies_positive_count sampleAllReplies 4 (by decide) (fun _ => rfl)
      (fun _ => rfl)).1 (samplePinger {}) rfl rfl).2.2.1,
   ((all_replies_positive_count sampleAllReplies 4 (by decide) (fun _ => rfl)
      (fun _ => rfl)).2 (sampleSession {}) rfl rfl).2.2.1⟩

/-- C2, at the count 0 (`-n 0`, no `-t`, the flag never cleared, every request
answered): both programs end the loop with `packetsSent = packetsReceived = 0`, but
the loss printed is not 0. The class based program divides `0.0` by 0 and prints the
resulting NaN; ver2 prints the fixed text `100% loss`. -/
theorem count_zero_all_replies :
    ClassBased.main ["ping", "localhost", "-n", "0"] samplePlatform sampleAllReplies 1 =
      Exit.returned 0
        [ Out.cout "Pinging localhost with 32 bytes of data:\n",
          Out.cout "\nPing statistics for localhost:\n",
          Out.cout "    Packets: Sent = 0, Received = 0, Lost = 0 (nan% loss),\n" ]
        [] ∧
    (lossPercent 0 0).isNaN = true ∧
    Ver2.main ["ping", "localhost", "-n", "0"] samplePlatform sampleAllReplies 1 =
      Exit.returned 0
        [ Out.cout "\nPinging localhost [ 127.0.0.1 ]  with 32 bytes of data:\n",
          Out.cout "\nPing statistics for 127.0.0.1:\n",
          Out.cout "    Packets: Sent = 0, Received = 0, Lost = 0 (100% loss),\n" ]
        [] := by
  decide

theorem zero_send_run (c : Settings) (request : EchoRequest) (targetIP : String) (env : Env)
    (h : (c.infinitePing = false ∧ c.numPings ≤ 0) ∨ env.g_running 0 = false) (fuel : Nat)
    (hfuel : 1 ≤ fuel) :
    runSteps c request targetIP env fuel = { LoopState.init with pc := Pc.exited } := by
  have hc : continueCond c (env.g_running 0) LoopState.init.packetsSent = false := by
    rcases h with ⟨hinf, hn⟩ | hg
    · have : ¬ (0 : Int) < c.numPings := not_lt.mpr hn
      simp [continueCond, hinf, LoopState.init, this]
    · simp [continueCond, hg]
  have h1 : runSteps c request targetIP env 1 = { LoopState.init with pc := Pc.exited } := by
    rw [runSteps_succ]
    exact loopStep_guard_false c request targetIP _ _ LoopState.init rfl hc
  rw [runSteps_exited_stable c request targetIP env 1 fuel (by rw [h1]) hfuel, h1]

/-- Sessions that send nothing. When the count is 0 (or negative) without `-t`, or
the flag already reads `false` at the first check, the loop body never runs: no
transport call, no wait, no reply or time-out line, `packetsSent = 0`,
`packetsReceived = 0`, and the summary has no round trip time lines. What the summary
shows as loss is the NaN of `0.0 / 0` in the class based program and the fixed
`100% loss` in ver2. -/
theorem zero_send_general (env : Env) :
    (∀ (p : ClassBased.Pinger) (pf : Platform) (fuel : Nat), pf.SetConsoleCtrlHandler = true →
      ((p.options.infinitePing = false ∧ p.options.numPings ≤ 0) ∨ env.g_running 0 = false) →
      1 ≤ fuel →
      p.loop env fuel = { LoopState.init with pc := Pc.exited } ∧
      p.run pf env fuel =
        Run.finished
          [ Out.cout p.banner,
            Out.cout ("\nPing statistics for " ++ p.options.target ++ ":\n"),
            Out.cout "    Packets: Sent = 0, Received = 0, Lost = 0 (nan% loss),\n" ]
          []) ∧
    (∀ (v : Ver2.Session) (fuel : Nat),
      ((v.settings.infinitePing = false ∧ v.settings.numPings ≤ 0)
        ∨ env.g_running 0 = false) →
      1 ≤ fuel →
      v.loop env fuel = { LoopState.init with pc := Pc.exited } ∧
      v.run env fuel =
        Exit.returned 0
          [ Out.cout v.banner,
            Out.cout ("\nPing statistics for " ++ v.targetIP ++ ":\n"),
            Out.cout "    Packets: Sent = 0, Received = 0, Lost = 0 (100% loss),\n" ]
          []) := by
  constructor
  · intro p pf fuel hpf h hfuel
    have e : p.loop env fuel = { LoopState.init with pc := Pc.exited } :=
      zero_send_run _ _ _ env h fuel hfuel
    refine ⟨e, ?_⟩
    unfold ClassBased.Pinger.run
    rw [e]
    simp only [hpf, Bool.not_true, Bool.false_eq_true, if_false, if_true, LoopState.init]
    rfl
  · intro v fuel h hfuel
    have e : v.loop env fuel = { LoopState.init with pc := Pc.exited } :=
      zero_send_run _ _ _ env h fuel hfuel
    refine ⟨e, ?_⟩
    unfold Ver2.Session.run
    rw [e]
    simp only [if_true, LoopState.init]
    rfl

/-- Ctrl-C before the first check of an unbounded session: `Pinger::run` prints the
banner and a two-line summary. -/
theorem zero_send_general_witness :
    (samplePinger { infinitePing := true }).run samplePlatform sampleStoppedAtOnce 1 =
      Run.finished
        [ Out.cout "Pinging localhost with 32 bytes of data:\n",
          Out.cout "\nPing statistics for localhost:\n",
          Out.cout "    Packets: Sent = 0, Received = 0, Lost = 0 (nan% loss),\n" ]
        [] :=
  ((zero_send_general sampleStoppedAtOnce).1 (samplePinger { infinitePing := true })
    samplePlatform 1 rfl (Or.inr rfl) (by decide)).2

/-- C4, at its two inputs. With `-n 0` (no request answered), and with the default
count when the flag already reads `false` at the first check, both programs send
nothing and print no round trip time lines, but the loss shown is not 0: the class
based program evaluates `100.0 * (0 - 0) / 0`, a division by zero whose result is
NaN, and ver2 prints the fixed text `100% loss`. -/
theorem zero_send_summary :
    ClassBased.main ["ping", "127.0.0.1", "-n", "0"] samplePlatform sampleAllTimeouts 1 =
      Exit.returned 0
        [ Out.cout "Pinging 127.0.0.1 with 32 bytes of data:\n",
          Out.cout "\nPing statistics for 127.0.0.1:\n",
          Out.cout "    Packets: Sent = 0, Received = 0, Lost = 0 (nan% loss),\n" ]
        [] ∧
    ClassBased.main ["ping", "127.0.0.1"] samplePlatform sampleStoppedAtOnce 1 =
      Exit.returned 0
        [ Out.cout "Pinging 127.0.0.1 with 32 bytes of data:\n",
          Out.cout "\nPing statistics for 127.0.0.1:\n",
          Out.cout "    Packets: Sent = 0, Received = 0, Lost = 0 (nan% loss),\n" ]
        [] ∧
    (lossPercent 0 0).den = 0 ∧
    Ver2.main ["ping", "127.0.0.1", "-n", "0"] samplePlatform sampleAllTimeouts 1 =
      Exit.returned 0
        [ Out.cout "\nPinging 127.0.0.1 with 32 bytes of data:\n",
          Out.cout "\nPing statistics for 127.0.0.1:\n",
          Out.cout "    Packets: Sent = 0, Received = 0, Lost = 0 (100% loss),\n" ]
        [] ∧
    Ver2.main ["ping", "127.0.0.1"] samplePlatform sampleStoppedAtOnce 1 =
      Exit.returned 0
        [ Out.cout "\nPinging 127.0.0.1 with 32 bytes of data:\n",
          Out.cout "\nPing statistics for 127.0.0.1:\n",
          Out.cout "    Packets: Sent = 0, Received = 0, Lost = 0 (100% loss),\n" ]
        [] := by
  decide

theorem runSteps_ttl (c : Settings) (ttl : Int) (request : EchoRequest) (targetIP : String)
    (env : Env) (n : Nat) :
    runSteps { c with ttl := ttl } request targetIP env n = runSteps c request targetIP env n := by
  induction n with
  | zero => rfl
  | succ n ih =>
    rw [runSteps_succ, runSteps_succ, ih]
    rfl

/-- The arguments of the transport call. In both programs every call the loop makes is
`IcmpSendEcho` with one fixed request (or `Sleep(1000)`); the request carries the
resolved address, `dataSize` bytes `'A'` when `0 ≤ dataSize`, that size as a `WORD`
and the timeout as a `DWORD`, and its request options are `nullptr`: it carries no
time-to-live, and changing the parsed `ttl` changes neither the request nor any
state of the loop. -/
theorem transport_call_arguments :
    (∀ (p : ClassBased.Pinger) (env : Env) (n : Nat) (e : Effect),
      e ∈ (p.loop env n).effects → e = Effect.IcmpSendEcho p.sendPing ∨ e = Effect.Sleep 1000) ∧
    (∀ (v : Ver2.Session) (env : Env) (n : Nat) (e : Effect),
      e ∈ (v.loop env n).effects → e = Effect.IcmpSendEcho v.request ∨ e = Effect.Sleep 1000) ∧
    (∀ (pf : Platform) (options : ClassBased.PingOptions) (p : ClassBased.Pinger),
      ClassBased.Pinger.create pf options = Try.ok p →
      ∃ address ipstr, pf.getaddrinfo options.target = some (address, ipstr) ∧
        0 ≤ options.dataSize ∧
        p.sendPing =
          { DestinationAddress := address
            RequestData := List.replicate options.dataSize.toNat 'A'
            RequestSize := (options.dataSize % 65536).toNat
            RequestOptions := none
            Timeout := (options.timeout % 4294967296).toNat }) ∧
    (∀ (v : Ver2.Session), v.request.RequestOptions = none ∧
      v.request.DestinationAddress = v.targetAddress ∧
      v.request.RequestData = v.sendData ∧
      v.request.RequestSize = (v.settings.dataSize % 65536).toNat ∧
      v.request.Timeout = (v.settings.timeout % 4294967296).toNat) ∧
    (∀ (p : ClassBased.Pinger) (ttl : Int) (env : Env) (n : Nat),
      ClassBased.Pinger.sendPing
          { p with options := { p.options with ttl := ttl } } = p.sendPing ∧
      ClassBased.Pinger.loop
          { p with options := { p.options with ttl := ttl } } env n = p.loop env n) ∧
    (∀ (v : Ver2.Session) (ttl : Int) (env : Env) (n : Nat),
      Ver2.Session.request { v with settings := { v.settings with ttl := ttl } } = v.request ∧
      Ver2.Session.loop { v with settings := { v.settings with ttl := ttl } } env n
        = v.loop env n) := by
  refine ⟨?_, ?_, ?_, ?_, ?_, ?_⟩
  · intro p env n e he
    exact (runSteps_inv p.options.toSettings p.sendPing p.options.targetIP env n).requests e he
  · intro v env n e he
    exact (runSteps_inv v.settings v.request v.targetIP env n).requests e he
  · intro pf options p h
    unfold ClassBased.Pinger.create at h
    cases hicmp : pf.IcmpCreateFile with
    | false => simp [hicmp] at h
    | true =>
      simp only [hicmp, Bool.not_true, Bool.false_eq_true, if_false] at h
      unfold ClassBased.Pinger.resolveAddress at h
      cases hres : pf.getaddrinfo options.target with
      | none => simp [hres] at h
      | some r =>
        obtain ⟨address, ipstr⟩ := r
        refine ⟨address, ipstr, rfl, ?_⟩
        simp only [hres] at h
        by_cases heq : ipstr = options.target
        · by_cases hneg : options.dataSize < 0
          · simp [heq, hneg, ClassBased.Pinger.prepareData] at h
          · refine ⟨not_lt.mp hneg, ?_⟩
            simp only [heq, hneg, ClassBased.Pinger.prepareData, if_true, if_false,
              Try.ok.injEq] at h
            rw [← h]
            rfl
        · by_cases hneg : options.dataSize < 0
          · simp [heq, hneg, ClassBased.Pinger.prepareData] at h
          · refine ⟨not_lt.mp hneg, ?_⟩
            simp only [heq, hneg, ClassBased.Pinger.prepareData, if_false,
              Try.ok.injEq] at h
            rw [← h]
            rfl
  · intro v
    exact ⟨rfl, rfl, rfl, rfl, rfl⟩
  · intro p ttl env n
    exact ⟨rfl, runSteps_ttl _ ttl _ _ env n⟩
  · intro v ttl env n
    exact ⟨rfl, runSteps_ttl _ ttl _ _ env n⟩

/-- C7, at `-i 5`. The option is parsed into `ttl = 5`, yet the one request each
program hands to `IcmpSendEcho` has `nullptr` request options and so carries no
time-to-live, and the whole run is the same as without `-i 5`. The address, the
32 bytes `'A'` and the timeout of 1000 are passed. -/
theorem ttl_option_not_passed :
    parseLoop samplePlatform.stoi ["-n", "1", "-i", "5"] {} = some { numPings := 1, ttl := 5 } ∧
    ClassBased.main ["ping", "localhost", "-n", "1", "-i", "5"] samplePlatform
        sampleAllReplies 3 =
      Exit.returned 0
        [ Out.cout "Pinging localhost with 32 bytes of data:\n",
          Out.cout "Reply from 127.0.0.1: bytes=32 time=1ms TTL=128\n",
          Out.cout "\nPing statistics for localhost:\n",
          Out.cout "    Packets: Sent = 1, Received = 1, Lost = 0 (0.0% loss),\n",
          Out.cout "Approximate round trip times in milli-seconds:\n",
          Out.cout "    Minimum = 1ms, Maximum = 1ms, Average = 1ms\n" ]
        [ Effect.IcmpSendEcho
            { DestinationAddress := 16777343
              RequestData := List.replicate 32 'A'
              RequestSize := 32
              RequestOptions := none
              Timeout := 1000 } ] ∧
    ClassBased.main ["ping", "localhost", "-n", "1", "-i", "5"] samplePlatform
        sampleAllReplies 3 =
      ClassBased.main ["ping", "localhost", "-n", "1"] samplePlatform sampleAllReplies 3 ∧
    Ver2.main ["ping", "localhost", "-n", "1", "-i", "5"] samplePlatform sampleAllReplies 3 =
      Exit.returned 0
        [ Out.cout "\nPinging localhost [ 127.0.0.1 ]  with 32 bytes of data:\n",
          Out.cout "Reply from 127.0.0.1: bytes=32 time=1ms TTL=128\n",
          Out.cout "\nPing statistics for 127.0.0.1:\n",
          Out.cout "    Packets: Sent = 1, Received = 1, Lost = 0 (0% loss),\n",
          Out.cout "Approximate round trip times in milli-seconds:\n",
          Out.cout "    Minimum = 1ms, Maximum = 1ms, Average = 1ms\n" ]
        [ Effect.IcmpSendEcho
            { DestinationAddress := 16777343
              RequestData := List.replicate 32 'A'
              RequestSize := 32
              RequestOptions := none
              Timeout := 1000 } ] ∧
    Ver2.main ["ping", "localhost", "-n", "1", "-i", "5"] samplePlatform sampleAllReplies 3 =
      Ver2.main ["ping", "localhost", "-n", "1"] samplePlatform sampleAllReplies 3 := by
  decide

/-- The banner of each program, for every target and resolved address. Ver2 prints
`Pinging <target> with <dataSize> bytes of data:` when the target string equals the
resolved address string and `Pinging <host> [ <ip> ]  with <dataSize> bytes of data:`
otherwise, after an empty line. The class based program prints
`Pinging <target> with <dataSize> bytes of data:` in both cases. -/
theorem banner_format :
    (∀ (v : Ver2.Session), v.DomainName = v.targetIP →
      v.banner = "\nPinging " ++ v.DomainName ++ " with " ++ toString v.settings.dataSize
        ++ " bytes of data:\n") ∧
    (∀ (v : Ver2.Session), v.DomainName ≠ v.targetIP →
      v.banner = "\nPinging " ++ v.DomainName ++ " [ " ++ v.targetIP ++ " ]  with "
        ++ toString v.settings.dataSize ++ " bytes of data:\n") ∧
    (∀ (p : ClassBased.Pinger),
      p.banner = "Pinging " ++ p.options.target ++ " with " ++ toString p.options.dataSize
        ++ " bytes of data:\n") := by
  refine ⟨?_, ?_, ?_⟩
  · intro v h
    unfold Ver2.Session.banner
    rw [if_pos h, h]
  · intro v h
    unfold Ver2.Session.banner
    rw [if_neg h]
    simp only [String.append_assoc]
    rfl
  · intro p
    rfl

/-- C8, at the host name `localhost` resolved to `127.0.0.1`. Ver2 prints the
banner with the resolved address in brackets; the class based program prints the
banner without it. -/
theorem banner_hostname :
    ClassBased.main ["ping", "localhost", "-n", "1"] samplePlatform sampleAllTimeouts 3 =
      Exit.returned 0
        [ Out.cout "Pinging localhost with 32 bytes of data:\n",
          Out.cerr "Request timed out.\n",
          Out.cout "\nPing statistics for localhost:\n",
          Out.cout "    Packets: Sent = 1, Received = 0, Lost = 1 (100.0% loss),\n" ]
        [ Effect.IcmpSendEcho
            { DestinationAddress := 16777343
              RequestData := List.replicate 32 'A'
              RequestSize := 32
              RequestOptions := none
              Timeout := 1000 } ] ∧
    Ver2.main ["ping", "localhost", "-n", "1"] samplePlatform sampleAllTimeouts 3 =
      Exit.returned 0
        [ Out.cout "\nPinging localhost [ 127.0.0.1 ]  with 32 bytes of data:\n",
          Out.cerr "Request timed out.\n",
          Out.cout "\nPing statistics for 127.0.0.1:\n",
          Out.cout "    Packets: Sent = 1, Received = 0, Lost = 1 (100% loss),\n" ]
        [ Effect.IcmpSendEcho
            { DestinationAddress := 16777343
              RequestData := List.replicate 32 'A'
              RequestSize := 32
              RequestOptions := none
              Timeout := 1000 } ] ∧
    (samplePinger {}).options.target ≠ (samplePinger {}).options.targetIP := by
  decide

end PingCopy
